import Mathlib

/-!
# fullmobi: the product screen of `src/App.js`

A shallow embedding of the `App` component: its seven `useState` fields, the
five asynchronous handlers (`requestLocationPermission`, `fetchItems`,
`saveItem`, `deleteItem`, `toggleLocationTracking`) and the inline handlers of
the rendered buttons and text inputs.

Handlers are written in a small effect monad `Eff` that carries the live React
state and a trace of observable events (state setters, requests, alerts,
console output) and in which an awaited call may reject; `try / catch /
finally` are combinators of that monad.  A handler is a closure over the
values of the render that created it, so every handler takes that render
snapshot as an explicit argument next to the live state held by the monad.
The monad also records the live state at every awaited call, which is what the
screen shows (spinner included) while the request is outstanding.
-/

namespace Fullmobi

/-! ## Data model -/

/-- The value carried by a rejected promise (the `error` bound by `catch`). -/
abbrev Err := String

/-- The `coords` object of a position fix.  The program only carries the two
numbers around (it renders them and sends them to the server), it never
computes with them, so they are kept as uninterpreted integers. -/
structure Coords where
  latitude : Int
  longitude : Int
deriving DecidableEq

/-- The object resolved by `Location.getCurrentPositionAsync`. -/
structure LocationData where
  coords : Coords
  timestamp : Int
deriving DecidableEq

/-- A product record as exchanged with the server (`Item` of the spec). -/
structure Item where
  _id : String
  name : String
  description : String
  location : Option Coords
deriving DecidableEq

/-- The body built by `saveItem`: `{ name, description, location }`. -/
structure Payload where
  name : String
  description : String
  location : Option Coords
deriving DecidableEq

/-- The object resolved by `Location.requestForegroundPermissionsAsync`. -/
structure PermissionResponse where
  status : String
deriving DecidableEq

/-- The seven `useState` fields of `App`, in declaration order. -/
structure AppState where
  items : List Item
  name : String
  description : String
  location : Option LocationData
  editingItem : Option Item
  loading : Bool
  isTracking : Bool
deriving DecidableEq

/-- The initial values passed to `useState`. -/
def initialState : AppState :=
  { items := [], name := "", description := "", location := none,
    editingItem := none, loading := false, isTracking := false }

/-- A call that leaves the component: the four axios calls and the two
expo-location calls. -/
inductive Request where
  | get (url : String)
  | post (url : String) (body : Payload)
  | put (url : String) (body : Payload)
  | delete (url : String)
  | requestForegroundPermissionsAsync
  | getCurrentPositionAsync
deriving DecidableEq

/-- Observable events of a handler run, in program order. -/
inductive Event where
  | setItems (v : List Item)
  | setName (v : String)
  | setDescription (v : String)
  | setLocation (v : Option LocationData)
  | setEditingItem (v : Option Item)
  | setLoading (v : Bool)
  | setIsTracking (v : Bool)
  | request (q : Request)
  | alert (title message : String)
  | consoleError (error : Err)
deriving DecidableEq

/-- What the outside world answers to the call a handler awaits: the promise
resolves (`ok`, for axios with the `data` of the response) or rejects
(`error`).  Every handler awaits at most one call, so one answer per kind of
call describes a run. -/
structure Env where
  get : Except Err (List Item)
  post : Except Err Item
  put : Except Err Item
  delete : Except Err Unit
  requestForegroundPermissionsAsync : Except Err PermissionResponse
  getCurrentPositionAsync : Except Err LocationData

/-! ## The effect monad -/

/-- The live React state together with the events emitted so far and, for
every call awaited so far, the live state at the moment the handler suspended
on it: the state the screen renders while that request is outstanding. -/
structure Machine where
  state : AppState
  awaiting : List AppState
  trace : List Event
deriving DecidableEq

/-- A computation that may throw, reads and writes the live state and appends
to the trace. -/
def Eff (α : Type) : Type := Machine → Except Err α × Machine

/-- Normal completion with a value. -/
def Eff.pure {α : Type} (a : α) : Eff α := fun m => (Except.ok a, m)

/-- Sequencing: a thrown error skips the rest. -/
def Eff.bind {α β : Type} (x : Eff α) (f : α → Eff β) : Eff β := fun m =>
  match x m with
  | (Except.ok a, m1) => f a m1
  | (Except.error e, m1) => (Except.error e, m1)

instance : Monad Eff where
  pure := Eff.pure
  bind := Eff.bind

/-- The block `try body catch (error) handler`. -/
def Eff.tryCatch {α : Type} (body : Eff α) (handler : Err → Eff α) : Eff α := fun m =>
  match body m with
  | (Except.ok a, m1) => (Except.ok a, m1)
  | (Except.error e, m1) => handler e m1

/-- The block `try body finally fin`: `fin` runs on both exits, and an error
escaping `body` is rethrown after it. -/
def Eff.tryFinally {α : Type} (body : Eff α) (fin : Eff Unit) : Eff α := fun m =>
  match body m with
  | (r, m1) =>
    match fin m1 with
    | (Except.ok _, m2) => (r, m2)
    | (Except.error e, m2) => (Except.error e, m2)

/-- Append one event to the trace. -/
def emit (e : Event) : Eff Unit := fun m =>
  (Except.ok (), { m with trace := m.trace ++ [e] })

/-- Issue the request `q` and wait for its promise, which settles as `answer`;
the live state at the suspension is recorded. -/
def await {α : Type} (q : Request) (answer : Except Err α) : Eff α := fun m =>
  (answer,
   { m with awaiting := m.awaiting ++ [m.state], trace := m.trace ++ [Event.request q] })

/-- Update the live state and log the setter call. -/
def setState (f : AppState → AppState) (e : Event) : Eff Unit := fun m =>
  (Except.ok (), { m with state := f m.state, trace := m.trace ++ [e] })

/-- The setter `setItems`. -/
def setItems (v : List Item) : Eff Unit :=
  setState (fun s => { s with items := v }) (Event.setItems v)

/-- The setter `setName`. -/
def setName (v : String) : Eff Unit :=
  setState (fun s => { s with name := v }) (Event.setName v)

/-- The setter `setDescription`. -/
def setDescription (v : String) : Eff Unit :=
  setState (fun s => { s with description := v }) (Event.setDescription v)

/-- The setter `setLocation`. -/
def setLocation (v : Option LocationData) : Eff Unit :=
  setState (fun s => { s with location := v }) (Event.setLocation v)

/-- The setter `setEditingItem`. -/
def setEditingItem (v : Option Item) : Eff Unit :=
  setState (fun s => { s with editingItem := v }) (Event.setEditingItem v)

/-- The setter `setLoading`. -/
def setLoading (v : Bool) : Eff Unit :=
  setState (fun s => { s with loading := v }) (Event.setLoading v)

/-- The setter `setIsTracking`. -/
def setIsTracking (v : Bool) : Eff Unit :=
  setState (fun s => { s with isTracking := v }) (Event.setIsTracking v)

/-- The call `Alert.alert(title, message)`. -/
def alert (title message : String) : Eff Unit := emit (Event.alert title message)

/-- The call `console.error(error)`. -/
def consoleError (error : Err) : Eff Unit := emit (Event.consoleError error)

/-! ## The handlers of `App` -/

/-- The address of the collection, as written in every axios call. -/
def itemsUrl : String := "http://192.168.1.79:3000/items"

/-- The template literal for one item: the collection address, a slash and
the identifier. -/
def itemUrl (id : String) : String := itemsUrl ++ "/" ++ id

/-- The handler `requestLocationPermission` (App.js 20-30). -/
def requestLocationPermission (env : Env) : Eff Unit :=
  Eff.tryCatch
    (do
      let locationPermission ←
        await Request.requestForegroundPermissionsAsync env.requestForegroundPermissionsAsync
      if locationPermission.status ≠ "granted" then
        alert "Permissão de Localização" "Sem permissão para acessar a localização."
      else
        pure ())
    (fun error => do
      consoleError error
      alert "Erro" "Falha ao solicitar permissão de localização.")

/-- The handler `fetchItems` (App.js 32-43).  It is memoised with an empty
dependency list and reads no state field. -/
def fetchItems (env : Env) : Eff Unit := do
  setLoading true
  Eff.tryFinally
    (Eff.tryCatch
      (do
        let response ← await (Request.get itemsUrl) env.get
        setItems response)
      (fun error => do
        consoleError error
        alert "Erro" "Falha ao carregar os itens."))
    (setLoading false)

/-- The handler `saveItem` (App.js 45-67); `c` is the render it closes over. -/
def saveItem (c : AppState) (env : Env) : Eff Unit := do
  setLoading true
  Eff.tryFinally
    (Eff.tryCatch
      (do
        let payload : Payload :=
          { name := c.name
            description := c.description
            location :=
              match c.location with
              | some l => some l.coords
              | none => none }
        match c.editingItem with
        | some editingItem =>
          let response ← await (Request.put (itemUrl editingItem._id) payload) env.put
          setItems (c.items.map fun item =>
            if item._id = editingItem._id then response else item)
          setEditingItem none
          alert "Sucesso" "Produto editado!"
        | none =>
          let response ← await (Request.post itemsUrl payload) env.post
          setItems (c.items ++ [response])
          alert "Sucesso" "Produto adicionado!"
        setName ""
        setDescription "")
      (fun error => do
        consoleError error
        alert "Erro" "Não foi possível salvar o produto."))
    (setLoading false)

/-- The handler `deleteItem` (App.js 69-81); `c` is the render it closes over. -/
def deleteItem (c : AppState) (id : String) (env : Env) : Eff Unit := do
  setLoading true
  Eff.tryFinally
    (Eff.tryCatch
      (do
        let _ ← await (Request.delete (itemUrl id)) env.delete
        setItems (c.items.filter fun item => item._id ≠ id)
        alert "Sucesso" "Produto excluído!")
      (fun error => do
        consoleError error
        alert "Erro" "Não foi possível excluir o produto."))
    (setLoading false)

/-- The handler `toggleLocationTracking` (App.js 83-96); `c` is the render it
closes over. -/
def toggleLocationTracking (c : AppState) (env : Env) : Eff Unit := do
  if !c.isTracking then
    Eff.tryCatch
      (do
        let locationData ← await Request.getCurrentPositionAsync env.getCurrentPositionAsync
        setLocation (some locationData))
      (fun error => do
        consoleError error
        alert "Erro" "Falha ao obter localização.")
  else
    setLocation none
  setIsTracking (!c.isTracking)

/-! ## Running a handler -/

/-- The outcome of a completed handler run: how it completed, the final live
state, the live state at each awaited call, and the events in order. -/
structure Run where
  result : Except Err Unit
  state : AppState
  awaiting : List AppState
  trace : List Event

/-- Run, to completion and with nothing interleaved, a handler created by the
render of `s`, in the live state `s`. -/
def call (handler : AppState → Eff Unit) (s : AppState) : Run :=
  match handler s { state := s, awaiting := [], trace := [] } with
  | (r, m) => { result := r, state := m.state, awaiting := m.awaiting, trace := m.trace }

/-- Whether a request is one of the four axios calls. -/
def Request.isHttp : Request → Bool
  | Request.get _ => true
  | Request.post _ _ => true
  | Request.put _ _ => true
  | Request.delete _ => true
  | Request.requestForegroundPermissionsAsync => false
  | Request.getCurrentPositionAsync => false

/-- The requests of a trace, in order. -/
def requests : List Event → List Request
  | [] => []
  | Event.request q :: rest => q :: requests rest
  | _ :: rest => requests rest

/-- The alerts of a trace (title and message), in order. -/
def alerts : List Event → List (String × String)
  | [] => []
  | Event.alert title message :: rest => (title, message) :: alerts rest
  | _ :: rest => alerts rest

/-- The item lists passed to `setItems` in a trace, in order. -/
def itemWrites : List Event → List (List Item)
  | [] => []
  | Event.setItems v :: rest => v :: itemWrites rest
  | _ :: rest => itemWrites rest

/-! ## The screen as a transition system -/

/-- What can happen on the screen: the two calls of the mount effect, the
three buttons of the form and header, the two buttons of a rendered row, and
typing in the two inputs. -/
inductive Action where
  | fetchItems
  | requestLocationPermission
  | toggleLocationTracking
  | saveItem
  | pressEditar (item : Item)
  | pressExcluir (item : Item)
  | changeName (text : String)
  | changeDescription (text : String)

/-- The handler an action invokes, as a function of the render it was created
in. -/
def Action.handler (env : Env) : Action → AppState → Eff Unit
  | Action.fetchItems, _ => Fullmobi.fetchItems env
  | Action.requestLocationPermission, _ => Fullmobi.requestLocationPermission env
  | Action.toggleLocationTracking, c => Fullmobi.toggleLocationTracking c env
  | Action.saveItem, c => Fullmobi.saveItem c env
  | Action.pressEditar item, _ => setEditingItem (some item)
  | Action.pressExcluir item, c => deleteItem c item._id env
  | Action.changeName text, _ => setName text
  | Action.changeDescription text, _ => setDescription text

/-- The row buttons exist only for the items of the rendered list. -/
def Action.enabled (s : AppState) : Action → Bool
  | Action.pressEditar item => decide (item ∈ s.items)
  | Action.pressExcluir item => decide (item ∈ s.items)
  | _ => true

/-- One completed action; an action the screen does not offer does nothing. -/
def step (s : AppState) (a : Action × Env) : AppState :=
  if a.1.enabled s then (call (a.1.handler a.2) s).state else s

/-- The state after a sequence of completed actions from the initial state. -/
def reach (script : List (Action × Env)) : AppState :=
  script.foldl step initialState

/-! ## Completed runs of the five handlers -/

/-- A completed `fetchItems()` in state `s`. -/
def runFetchItems (s : AppState) (env : Env) : Run :=
  call (fun _ => fetchItems env) s

/-- A completed `saveItem()` in state `s`. -/
def runSaveItem (s : AppState) (env : Env) : Run :=
  call (fun c => saveItem c env) s

/-- A completed `deleteItem(id)` in state `s`. -/
def runDeleteItem (s : AppState) (id : String) (env : Env) : Run :=
  call (fun c => deleteItem c id env) s

/-- A completed `toggleLocationTracking()` in state `s`. -/
def runToggleLocationTracking (s : AppState) (env : Env) : Run :=
  call (fun c => toggleLocationTracking c env) s

/-- A completed `requestLocationPermission()` in state `s`. -/
def runRequestLocationPermission (s : AppState) (env : Env) : Run :=
  call (fun _ => requestLocationPermission env) s

/-! ## Sample data -/

/-- A row without a location. -/
def sampleA : Item := { _id := "a", name := "Caneta", description := "azul", location := none }

/-- A second row, with another identifier. -/
def sampleB : Item := { _id := "b", name := "Lápis", description := "HB", location := none }

/-- The server copy of the first row after an edit. -/
def sampleA2 : Item :=
  { _id := "a", name := "Caneta", description := "preta",
    location := some { latitude := -8, longitude := -35 } }

/-- A row the sample screen does not show. -/
def sampleC : Item := { _id := "c", name := "Borracha", description := "branca", location := none }

/-- A position fix. -/
def sampleFix : LocationData := { coords := { latitude := -8, longitude := -35 }, timestamp := 1700 }

/-- A world in which every call succeeds. -/
def envOk : Env :=
  { get := Except.ok [sampleC, sampleA]
    post := Except.ok sampleC
    put := Except.ok sampleA2
    delete := Except.ok ()
    requestForegroundPermissionsAsync := Except.ok { status := "granted" }
    getCurrentPositionAsync := Except.ok sampleFix }

/-- A world in which every call is rejected. -/
def envErr : Env :=
  { get := Except.error "Network Error"
    post := Except.error "Network Error"
    put := Except.error "Network Error"
    delete := Except.error "Network Error"
    requestForegroundPermissionsAsync := Except.error "unavailable"
    getCurrentPositionAsync := Except.error "unavailable" }

/-- A world in which the permission dialog is answered with a refusal. -/
def envDenied : Env :=
  { envOk with requestForegroundPermissionsAsync := Except.ok { status := "denied" } }

/-- A screen with three rows (two of them share an identifier) and a filled
form, nothing being edited and tracking off. -/
def sampleState : AppState :=
  { items := [sampleA, sampleB, sampleA], name := "Caneta", description := "preta",
    location := none, editingItem := none, loading := false, isTracking := false }

/-- The sample screen after pressing Editar on its first row. -/
def sampleEditing : AppState := { sampleState with editingItem := some sampleA }

/-- The sample screen while editing an item that is no longer in the list. -/
def sampleEditingGone : AppState := { sampleState with editingItem := some sampleC }

/-- The sample screen with a held position fix. -/
def sampleTracking : AppState :=
  { sampleState with location := some sampleFix, isTracking := true }

/-! ## What each run does, per outcome of the awaited call -/

/-- The run of `fetchItems` when the GET resolves. -/
theorem fetchItems_ok (s : AppState) (env : Env) (d : List Item)
    (h : env.get = Except.ok d) :
    runFetchItems s env =
      { result := Except.ok ()
        state := { s with items := d, loading := false }
        awaiting := [{ s with loading := true }]
        trace := [Event.setLoading true, Event.request (Request.get itemsUrl),
                  Event.setItems d, Event.setLoading false] } := by
  obtain ⟨get, post, put, delete, perm, pos⟩ := env
  simp only at h
  subst h
  rfl

/-- The run of `fetchItems` when the GET rejects. -/
theorem fetchItems_error (s : AppState) (env : Env) (e : Err)
    (h : env.get = Except.error e) :
    runFetchItems s env =
      { result := Except.ok ()
        state := { s with loading := false }
        awaiting := [{ s with loading := true }]
        trace := [Event.setLoading true, Event.request (Request.get itemsUrl),
                  Event.consoleError e, Event.alert "Erro" "Falha ao carregar os itens.",
                  Event.setLoading false] } := by
  obtain ⟨get, post, put, delete, perm, pos⟩ := env
  simp only at h
  subst h
  rfl

/-- The run of `saveItem` on an edited item when the PUT resolves. -/
theorem saveItem_update_ok (s : AppState) (env : Env) (e r : Item)
    (he : s.editingItem = some e) (h : env.put = Except.ok r) :
    runSaveItem s env =
      { result := Except.ok ()
        state :=
          { s with
            items := s.items.map (fun item => if item._id = e._id then r else item)
            editingItem := none, name := "", description := "", loading := false }
        awaiting := [{ s with loading := true }]
        trace :=
          [Event.setLoading true,
           Event.request (Request.put (itemUrl e._id)
             ⟨s.name, s.description, s.location.map LocationData.coords⟩),
           Event.setItems (s.items.map (fun item => if item._id = e._id then r else item)),
           Event.setEditingItem none, Event.alert "Sucesso" "Produto editado!",
           Event.setName "", Event.setDescription "", Event.setLoading false] } := by
  obtain ⟨items, name, description, location, editingItem, loading, isTracking⟩ := s
  obtain ⟨get, post, put, delete, perm, pos⟩ := env
  simp only at he h
  subst he h
  cases location <;> rfl

/-- The run of `saveItem` on an edited item when the PUT rejects. -/
theorem saveItem_update_error (s : AppState) (env : Env) (e : Item) (err : Err)
    (he : s.editingItem = some e) (h : env.put = Except.error err) :
    runSaveItem s env =
      { result := Except.ok ()
        state := { s with loading := false }
        awaiting := [{ s with loading := true }]
        trace :=
          [Event.setLoading true,
           Event.request (Request.put (itemUrl e._id)
             ⟨s.name, s.description, s.location.map LocationData.coords⟩),
           Event.consoleError err, Event.alert "Erro" "Não foi possível salvar o produto.",
           Event.setLoading false] } := by
  obtain ⟨items, name, description, location, editingItem, loading, isTracking⟩ := s
  obtain ⟨get, post, put, delete, perm, pos⟩ := env
  simp only at he h
  subst he h
  cases location <;> rfl

/-- The run of `saveItem` with nothing edited when the POST resolves. -/
theorem saveItem_create_ok (s : AppState) (env : Env) (r : Item)
    (he : s.editingItem = none) (h : env.post = Except.ok r) :
    runSaveItem s env =
      { result := Except.ok ()
        state :=
          { s with items := s.items ++ [r], name := "", description := "", loading := false }
        awaiting := [{ s with loading := true }]
        trace :=
          [Event.setLoading true,
           Event.request (Request.post itemsUrl
             ⟨s.name, s.description, s.location.map LocationData.coords⟩),
           Event.setItems (s.items ++ [r]), Event.alert "Sucesso" "Produto adicionado!",
           Event.setName "", Event.setDescription "", Event.setLoading false] } := by
  obtain ⟨items, name, description, location, editingItem, loading, isTracking⟩ := s
  obtain ⟨get, post, put, delete, perm, pos⟩ := env
  simp only at he h
  subst he h
  cases location <;> rfl

/-- The run of `saveItem` with nothing edited when the POST rejects. -/
theorem saveItem_create_error (s : AppState) (env : Env) (err : Err)
    (he : s.editingItem = none) (h : env.post = Except.error err) :
    runSaveItem s env =
      { result := Except.ok ()
        state := { s with loading := false }
        awaiting := [{ s with loading := true }]
        trace :=
          [Event.setLoading true,
           Event.request (Request.post itemsUrl
             ⟨s.name, s.description, s.location.map LocationData.coords⟩),
           Event.consoleError err, Event.alert "Erro" "Não foi possível salvar o produto.",
           Event.setLoading false] } := by
  obtain ⟨items, name, description, location, editingItem, loading, isTracking⟩ := s
  obtain ⟨get, post, put, delete, perm, pos⟩ := env
  simp only at he h
  subst he h
  cases location <;> rfl

/-- The run of `deleteItem` when the DELETE resolves. -/
theorem deleteItem_ok (s : AppState) (id : String) (env : Env)
    (h : env.delete = Except.ok ()) :
    runDeleteItem s id env =
      { result := Except.ok ()
        state :=
          { s with items := s.items.filter (fun item => item._id ≠ id), loading := false }
        awaiting := [{ s with loading := true }]
        trace :=
          [Event.setLoading true, Event.request (Request.delete (itemUrl id)),
           Event.setItems (s.items.filter (fun item => item._id ≠ id)),
           Event.alert "Sucesso" "Produto excluído!", Event.setLoading false] } := by
  obtain ⟨get, post, put, delete, perm, pos⟩ := env
  simp only at h
  subst h
  rfl

/-- The run of `deleteItem` when the DELETE rejects. -/
theorem deleteItem_error (s : AppState) (id : String) (env : Env) (err : Err)
    (h : env.delete = Except.error err) :
    runDeleteItem s id env =
      { result := Except.ok ()
        state := { s with loading := false }
        awaiting := [{ s with loading := true }]
        trace :=
          [Event.setLoading true, Event.request (Request.delete (itemUrl id)),
           Event.consoleError err, Event.alert "Erro" "Não foi possível excluir o produto.",
           Event.setLoading false] } := by
  obtain ⟨get, post, put, delete, perm, pos⟩ := env
  simp only at h
  subst h
  rfl

/-- The run of the toggle with tracking off when the position resolves. -/
theorem toggle_enable_ok (s : AppState) (env : Env) (fix : LocationData)
    (ht : s.isTracking = false) (h : env.getCurrentPositionAsync = Except.ok fix) :
    runToggleLocationTracking s env =
      { result := Except.ok ()
        state := { s with location := some fix, isTracking := true }
        awaiting := [s]
        trace := [Event.request Request.getCurrentPositionAsync,
                  Event.setLocation (some fix), Event.setIsTracking true] } := by
  obtain ⟨items, name, description, location, editingItem, loading, isTracking⟩ := s
  obtain ⟨get, post, put, delete, perm, pos⟩ := env
  simp only at ht h
  subst ht h
  rfl

/-- The run of the toggle with tracking off when the position rejects. -/
theorem toggle_enable_error (s : AppState) (env : Env) (err : Err)
    (ht : s.isTracking = false) (h : env.getCurrentPositionAsync = Except.error err) :
    runToggleLocationTracking s env =
      { result := Except.ok ()
        state := { s with isTracking := true }
        awaiting := [s]
        trace := [Event.request Request.getCurrentPositionAsync,
                  Event.consoleError err, Event.alert "Erro" "Falha ao obter localização.",
                  Event.setIsTracking true] } := by
  obtain ⟨items, name, description, location, editingItem, loading, isTracking⟩ := s
  obtain ⟨get, post, put, delete, perm, pos⟩ := env
  simp only at ht h
  subst ht h
  rfl

/-- The run of the toggle with tracking on: no call is awaited. -/
theorem toggle_disable (s : AppState) (env : Env) (ht : s.isTracking = true) :
    runToggleLocationTracking s env =
      { result := Except.ok ()
        state := { s with location := none, isTracking := false }
        awaiting := []
        trace := [Event.setLocation none, Event.setIsTracking false] } := by
  obtain ⟨items, name, description, location, editingItem, loading, isTracking⟩ := s
  simp only at ht
  subst ht
  rfl

/-- The run of `requestLocationPermission` when permission is granted. -/
theorem permission_granted (s : AppState) (env : Env)
    (h : env.requestForegroundPermissionsAsync = Except.ok { status := "granted" }) :
    runRequestLocationPermission s env =
      { result := Except.ok ()
        state := s
        awaiting := [s]
        trace := [Event.request Request.requestForegroundPermissionsAsync] } := by
  obtain ⟨get, post, put, delete, perm, pos⟩ := env
  simp only at h
  subst h
  rfl

/-- The run of `requestLocationPermission` on any other status. -/
theorem permission_refused (s : AppState) (env : Env) (p : PermissionResponse)
    (h : env.requestForegroundPermissionsAsync = Except.ok p) (hp : p.status ≠ "granted") :
    runRequestLocationPermission s env =
      { result := Except.ok ()
        state := s
        awaiting := [s]
        trace := [Event.request Request.requestForegroundPermissionsAsync,
                  Event.alert "Permissão de Localização"
                    "Sem permissão para acessar a localização."] } := by
  obtain ⟨get, post, put, delete, perm, pos⟩ := env
  simp only at h
  subst h
  simp [runRequestLocationPermission, call, requestLocationPermission, Eff.tryCatch, await,
    bind, Eff.bind, hp, alert, emit]

/-- The run of `requestLocationPermission` when the dialog call rejects. -/
theorem permission_error (s : AppState) (env : Env) (err : Err)
    (h : env.requestForegroundPermissionsAsync = Except.error err) :
    runRequestLocationPermission s env =
      { result := Except.ok ()
        state := s
        awaiting := [s]
        trace := [Event.request Request.requestForegroundPermissionsAsync,
                  Event.consoleError err,
                  Event.alert "Erro" "Falha ao solicitar permissão de localização."] } := by
  obtain ⟨get, post, put, delete, perm, pos⟩ := env
  simp only at h
  subst h
  rfl

/-! ## The item list under the three mutations and the refresh -/

/-- C1: a successful update (editingItem set, PUT answered with `r`) leaves a
list of the same length whose element at every position `i` is `r` when
`items[i]._id` equals `editingItem._id` and `items[i]` otherwise; when no
element carries that identifier the list is unchanged. -/
theorem saveItem_update_in_place (s : AppState) (env : Env) (editingItem r : Item)
    (hedit : s.editingItem = some editingItem) (hok : env.put = Except.ok r) :
    (runSaveItem s env).state.items.length = s.items.length ∧
    (∀ (i : Nat) (h : i < s.items.length),
      (runSaveItem s env).state.items[i]? =
        some (if (s.items.get ⟨i, h⟩)._id = editingItem._id then r
              else s.items.get ⟨i, h⟩)) ∧
    ((∀ x ∈ s.items, x._id ≠ editingItem._id) →
      (runSaveItem s env).state.items = s.items) := by
  rw [saveItem_update_ok s env editingItem r hedit hok]
  refine ⟨by simp, ?_, ?_⟩
  · intro i h
    simp [List.getElem?_eq_getElem h]
  · intro hno
    show s.items.map _ = s.items
    conv_rhs => rw [← List.map_id s.items]
    apply List.map_congr_left
    intro x hx
    simp [hno x hx]

theorem saveItem_update_in_place_witness :
    sampleEditing.editingItem = some sampleA ∧ envOk.put = Except.ok sampleA2 ∧
    (runSaveItem sampleEditing envOk).state.items.length = sampleEditing.items.length ∧
    (∀ (i : Nat) (h : i < sampleEditing.items.length),
      (runSaveItem sampleEditing envOk).state.items[i]? =
        some (if (sampleEditing.items.get ⟨i, h⟩)._id = sampleA._id then sampleA2
              else sampleEditing.items.get ⟨i, h⟩)) ∧
    ((∀ x ∈ sampleEditing.items, x._id ≠ sampleA._id) →
      (runSaveItem sampleEditing envOk).state.items = sampleEditing.items) :=
  ⟨rfl, rfl, saveItem_update_in_place sampleEditing envOk sampleA sampleA2 rfl rfl⟩

/-- The update of an item that is in no row leaves the three rows as they were. -/
theorem saveItem_update_absent_example :
    (∀ x ∈ sampleEditingGone.items, x._id ≠ sampleC._id) ∧
    (runSaveItem sampleEditingGone envOk).state.items = [sampleA, sampleB, sampleA] :=
  ⟨by decide, by decide⟩

/-- C2: a successful `deleteItem(id)` leaves a sub-list of the previous list, in
the original order, in which no element has identifier `id` and every element
with another identifier occurs as often as before; the list is unchanged when
no element has that identifier. -/
theorem deleteItem_removes_by_id (s : AppState) (id : String) (env : Env)
    (hok : env.delete = Except.ok ()) :
    (runDeleteItem s id env).state.items =
      s.items.filter (fun item => decide (item._id ≠ id)) ∧
    (runDeleteItem s id env).state.items.Sublist s.items ∧
    (∀ x ∈ (runDeleteItem s id env).state.items, x._id ≠ id) ∧
    (∀ x : Item, x._id ≠ id →
      (runDeleteItem s id env).state.items.count x = s.items.count x) ∧
    ((∀ x ∈ s.items, x._id ≠ id) → (runDeleteItem s id env).state.items = s.items) := by
  rw [deleteItem_ok s id env hok]
  refine ⟨rfl, List.filter_sublist _, ?_, ?_, ?_⟩
  · intro x hx
    have h := (List.mem_filter.mp hx).2
    simpa using h
  · intro x hx
    show List.count x (s.items.filter _) = _
    rw [List.count_filter]
    simpa using hx
  · intro hno
    show s.items.filter _ = s.items
    apply List.filter_eq_self.mpr
    intro x hx
    simpa using hno x hx

theorem deleteItem_removes_by_id_witness :
    envOk.delete = Except.ok () ∧
    (runDeleteItem sampleState "a" envOk).state.items =
      sampleState.items.filter (fun item => decide (item._id ≠ "a")) ∧
    (runDeleteItem sampleState "a" envOk).state.items.Sublist sampleState.items ∧
    (∀ x ∈ (runDeleteItem sampleState "a" envOk).state.items, x._id ≠ "a") ∧
    (∀ x : Item, x._id ≠ "a" →
      (runDeleteItem sampleState "a" envOk).state.items.count x = sampleState.items.count x) ∧
    ((∀ x ∈ sampleState.items, x._id ≠ "a") →
      (runDeleteItem sampleState "a" envOk).state.items = sampleState.items) :=
  ⟨rfl, deleteItem_removes_by_id sampleState "a" envOk rfl⟩

/-- C3: a successful create (editingItem null, POST answered with `r`) leaves
the previous list with `r` appended as its last element, one longer and with
every earlier element in place; name and description become the empty string;
location, isTracking and editingItem are unchanged. -/
theorem saveItem_create_appends (s : AppState) (env : Env) (r : Item)
    (hedit : s.editingItem = none) (hok : env.post = Except.ok r) :
    (runSaveItem s env).state.items = s.items ++ [r] ∧
    (runSaveItem s env).state.items.length = s.items.length + 1 ∧
    (runSaveItem s env).state.items.getLast? = some r ∧
    (∀ i : Nat, i < s.items.length →
      (runSaveItem s env).state.items[i]? = s.items[i]?) ∧
    (runSaveItem s env).state.name = "" ∧
    (runSaveItem s env).state.description = "" ∧
    (runSaveItem s env).state.location = s.location ∧
    (runSaveItem s env).state.isTracking = s.isTracking ∧
    (runSaveItem s env).state.editingItem = s.editingItem := by
  rw [saveItem_create_ok s env r hedit hok]
  refine ⟨rfl, by simp, by simp, ?_, rfl, rfl, rfl, rfl, rfl⟩
  intro i hi
  show (s.items ++ [r])[i]? = s.items[i]?
  exact List.getElem?_append_left hi

theorem saveItem_create_appends_witness :
    sampleState.editingItem = none ∧ envOk.post = Except.ok sampleC ∧
    (runSaveItem sampleState envOk).state.items = sampleState.items ++ [sampleC] ∧
    (runSaveItem sampleState envOk).state.items.length = sampleState.items.length + 1 ∧
    (runSaveItem sampleState envOk).state.items.getLast? = some sampleC ∧
    (∀ i : Nat, i < sampleState.items.length →
      (runSaveItem sampleState envOk).state.items[i]? = sampleState.items[i]?) ∧
    (runSaveItem sampleState envOk).state.name = "" ∧
    (runSaveItem sampleState envOk).state.description = "" ∧
    (runSaveItem sampleState envOk).state.location = sampleState.location ∧
    (runSaveItem sampleState envOk).state.isTracking = sampleState.isTracking ∧
    (runSaveItem sampleState envOk).state.editingItem = sampleState.editingItem :=
  ⟨rfl, rfl, saveItem_create_appends sampleState envOk sampleC rfl rfl⟩

/-- C5: a successful `fetchItems` leaves the item list equal to the response,
whatever the previous list was, and changes no field other than `items` and
`loading`; two successful refreshes with the same response end with the same
item list. -/
theorem fetchItems_overwrites (s : AppState) (env : Env) (d : List Item)
    (hok : env.get = Except.ok d) :
    (runFetchItems s env).state.items = d ∧
    (runFetchItems s env).state.name = s.name ∧
    (runFetchItems s env).state.description = s.description ∧
    (runFetchItems s env).state.location = s.location ∧
    (runFetchItems s env).state.editingItem = s.editingItem ∧
    (runFetchItems s env).state.isTracking = s.isTracking ∧
    (∀ (s2 : AppState) (env2 : Env), env2.get = Except.ok d →
      (runFetchItems s2 env2).state.items = (runFetchItems s env).state.items) := by
  rw [fetchItems_ok s env d hok]
  refine ⟨rfl, rfl, rfl, rfl, rfl, rfl, ?_⟩
  intro s2 env2 h2
  rw [fetchItems_ok s2 env2 d h2]

theorem fetchItems_overwrites_witness :
    envOk.get = Except.ok [sampleC, sampleA] ∧
    (runFetchItems sampleState envOk).state.items = [sampleC, sampleA] ∧
    (runFetchItems sampleState envOk).state.name = sampleState.name ∧
    (runFetchItems sampleState envOk).state.description = sampleState.description ∧
    (runFetchItems sampleState envOk).state.location = sampleState.location ∧
    (runFetchItems sampleState envOk).state.editingItem = sampleState.editingItem ∧
    (runFetchItems sampleState envOk).state.isTracking = sampleState.isTracking ∧
    (∀ (s2 : AppState) (env2 : Env), env2.get = Except.ok [sampleC, sampleA] →
      (runFetchItems s2 env2).state.items = (runFetchItems sampleState envOk).state.items) :=
  ⟨rfl, fetchItems_overwrites sampleState envOk [sampleC, sampleA] rfl⟩

/-! ## Requests issued by the handlers -/

/-- C4 (fails as stated): on a screen that is editing its first row, `saveItem`
issues a PUT to the address of that row, not a POST to the collection. -/
theorem saveItem_post_counterexample :
    requests (runSaveItem sampleEditing envOk).trace =
      [Request.put "http://192.168.1.79:3000/items/a"
        { name := "Caneta", description := "preta", location := none }] ∧
    requests (runSaveItem sampleEditing envOk).trace ≠
      [Request.post "http://192.168.1.79:3000/items"
        { name := sampleEditing.name, description := sampleEditing.description,
          location := sampleEditing.location.map LocationData.coords }] := by
  decide

/-- C4 (amended): in every state `saveItem` issues exactly one HTTP request,
whose body holds the current name and description and the coords of the held
fix (null without a fix); it is a POST to /items when editingItem is null and a
PUT to /items/<editingItem._id> when an item is being edited. -/
theorem saveItem_issues_one_request :
    (∀ (s : AppState) (env : Env), s.editingItem = none →
      requests (runSaveItem s env).trace =
        [Request.post "http://192.168.1.79:3000/items"
          { name := s.name, description := s.description,
            location := s.location.map LocationData.coords }]) ∧
    (∀ (s : AppState) (env : Env) (e : Item), s.editingItem = some e →
      requests (runSaveItem s env).trace =
        [Request.put ("http://192.168.1.79:3000/items" ++ "/" ++ e._id)
          { name := s.name, description := s.description,
            location := s.location.map LocationData.coords }]) := by
  constructor
  · intro s env he
    cases h : env.post with
    | ok r => rw [saveItem_create_ok s env r he h]; rfl
    | error err => rw [saveItem_create_error s env err he h]; rfl
  · intro s env e he
    cases h : env.put with
    | ok r => rw [saveItem_update_ok s env e r he h]; rfl
    | error err => rw [saveItem_update_error s env e err he h]; rfl

theorem saveItem_issues_one_request_witness :
    (sampleTracking.editingItem = none ∧
      requests (runSaveItem sampleTracking envErr).trace =
        [Request.post "http://192.168.1.79:3000/items"
          { name := "Caneta", description := "preta",
            location := some { latitude := -8, longitude := -35 } }]) ∧
    (sampleEditing.editingItem = some sampleA ∧
      requests (runSaveItem sampleEditing envOk).trace =
        [Request.put ("http://192.168.1.79:3000/items" ++ "/" ++ sampleA._id)
          { name := "Caneta", description := "preta", location := none }]) :=
  ⟨⟨rfl, saveItem_issues_one_request.1 sampleTracking envErr rfl⟩,
   ⟨rfl, saveItem_issues_one_request.2 sampleEditing envOk sampleA rfl⟩⟩

/-- C8 (fails as stated): pressing the toggle while tracking is on issues no
request at all. -/
theorem toggle_request_counterexample :
    requests (runToggleLocationTracking sampleTracking envOk).trace = [] ∧
    (requests (runToggleLocationTracking sampleTracking envOk).trace).length ≠ 1 := by
  decide

/-- C8 (amended): in every state, whatever the loading flag, `saveItem` and
`deleteItem` each issue exactly one request and it is an HTTP request;
`toggleLocationTracking` issues exactly one position request when isTracking is
false and no request when isTracking is true. -/
theorem requests_per_action :
    (∀ (s : AppState) (env : Env),
      (requests (runSaveItem s env).trace).length = 1 ∧
      ∀ q ∈ requests (runSaveItem s env).trace, q.isHttp = true) ∧
    (∀ (s : AppState) (id : String) (env : Env),
      requests (runDeleteItem s id env).trace = [Request.delete (itemsUrl ++ "/" ++ id)]) ∧
    (∀ (s : AppState) (env : Env), s.isTracking = false →
      requests (runToggleLocationTracking s env).trace = [Request.getCurrentPositionAsync]) ∧
    (∀ (s : AppState) (env : Env), s.isTracking = true →
      requests (runToggleLocationTracking s env).trace = []) := by
  refine ⟨?_, ?_, ?_, ?_⟩
  · intro s env
    cases he : s.editingItem with
    | none =>
      cases h : env.post with
      | ok r => rw [saveItem_create_ok s env r he h]; simp [requests, Request.isHttp]
      | error err => rw [saveItem_create_error s env err he h]; simp [requests, Request.isHttp]
    | some e =>
      cases h : env.put with
      | ok r => rw [saveItem_update_ok s env e r he h]; simp [requests, Request.isHttp]
      | error err =>
        rw [saveItem_update_error s env e err he h]; simp [requests, Request.isHttp]
  · intro s id env
    cases h : env.delete with
    | ok u => rw [deleteItem_ok s id env h]; rfl
    | error err => rw [deleteItem_error s id env err h]; rfl
  · intro s env ht
    cases h : env.getCurrentPositionAsync with
    | ok fix => rw [toggle_enable_ok s env fix ht h]; rfl
    | error err => rw [toggle_enable_error s env err ht h]; rfl
  · intro s env ht
    rw [toggle_disable s env ht]; rfl

theorem requests_per_action_witness :
    (sampleState.isTracking = false ∧
      requests (runToggleLocationTracking sampleState envErr).trace =
        [Request.getCurrentPositionAsync]) ∧
    (sampleTracking.isTracking = true ∧
      requests (runToggleLocationTracking sampleTracking envErr).trace = []) :=
  ⟨⟨rfl, requests_per_action.2.2.1 sampleState envErr rfl⟩,
   ⟨rfl, requests_per_action.2.2.2 sampleTracking envErr rfl⟩⟩

/-! ## Failures -/

/-- No handler lets an error escape, whatever the world answers. -/
theorem handlers_complete (s : AppState) (env : Env) (id : String) :
    (runFetchItems s env).result = Except.ok () ∧
    (runSaveItem s env).result = Except.ok () ∧
    (runDeleteItem s id env).result = Except.ok () ∧
    (runToggleLocationTracking s env).result = Except.ok () ∧
    (runRequestLocationPermission s env).result = Except.ok () := by
  refine ⟨?_, ?_, ?_, ?_, ?_⟩
  · cases h : env.get with
    | ok d => rw [fetchItems_ok s env d h]
    | error err => rw [fetchItems_error s env err h]
  · cases he : s.editingItem with
    | none =>
      cases h : env.post with
      | ok r => rw [saveItem_create_ok s env r he h]
      | error err => rw [saveItem_create_error s env err he h]
    | some e =>
      cases h : env.put with
      | ok r => rw [saveItem_update_ok s env e r he h]
      | error err => rw [saveItem_update_error s env e err he h]
  · cases h : env.delete with
    | ok u => rw [deleteItem_ok s id env h]
    | error err => rw [deleteItem_error s id env err h]
  · cases ht : s.isTracking with
    | true => rw [toggle_disable s env ht]
    | false =>
      cases h : env.getCurrentPositionAsync with
      | ok fix => rw [toggle_enable_ok s env fix ht h]
      | error err => rw [toggle_enable_error s env err ht h]
  · cases h : env.requestForegroundPermissionsAsync with
    | error err => rw [permission_error s env err h]
    | ok p =>
      by_cases hp : p.status = "granted"
      · obtain ⟨status⟩ := p
        simp only at hp
        subst hp
        rw [permission_granted s env h]
      · rw [permission_refused s env p h hp]

/-- C6: whenever the request a handler has issued is rejected, the handler
still completes normally and emits exactly one alert, titled Erro; this holds
for fetchItems, saveItem (create and update), deleteItem,
toggleLocationTracking and requestLocationPermission.  Every handler completes
normally under every answer, and a permission answer other than granted makes
requestLocationPermission emit exactly one alert. -/
theorem failures_are_caught :
    (∀ (s : AppState) (env : Env) (e : Err), env.get = Except.error e →
      ((runFetchItems s env).result = Except.ok () ∧
       (alerts (runFetchItems s env).trace).map Prod.fst = ["Erro"])) ∧
    (∀ (s : AppState) (env : Env) (e : Err),
      s.editingItem = none → env.post = Except.error e →
      ((runSaveItem s env).result = Except.ok () ∧
       (alerts (runSaveItem s env).trace).map Prod.fst = ["Erro"])) ∧
    (∀ (s : AppState) (env : Env) (it : Item) (e : Err),
      s.editingItem = some it → env.put = Except.error e →
      ((runSaveItem s env).result = Except.ok () ∧
       (alerts (runSaveItem s env).trace).map Prod.fst = ["Erro"])) ∧
    (∀ (s : AppState) (id : String) (env : Env) (e : Err), env.delete = Except.error e →
      ((runDeleteItem s id env).result = Except.ok () ∧
       (alerts (runDeleteItem s id env).trace).map Prod.fst = ["Erro"])) ∧
    (∀ (s : AppState) (env : Env) (e : Err),
      Event.request Request.getCurrentPositionAsync ∈ (runToggleLocationTracking s env).trace →
      env.getCurrentPositionAsync = Except.error e →
      ((runToggleLocationTracking s env).result = Except.ok () ∧
       (alerts (runToggleLocationTracking s env).trace).map Prod.fst = ["Erro"])) ∧
    (∀ (s : AppState) (env : Env) (e : Err),
      env.requestForegroundPermissionsAsync = Except.error e →
      ((runRequestLocationPermission s env).result = Except.ok () ∧
       (alerts (runRequestLocationPermission s env).trace).map Prod.fst = ["Erro"])) ∧
    (∀ (s : AppState) (env : Env) (p : PermissionResponse),
      env.requestForegroundPermissionsAsync = Except.ok p → p.status ≠ "granted" →
      (runRequestLocationPermission s env).result = Except.ok () ∧
      (alerts (runRequestLocationPermission s env).trace).length = 1) ∧
    (∀ (s : AppState) (env : Env) (id : String),
      (runFetchItems s env).result = Except.ok () ∧
      (runSaveItem s env).result = Except.ok () ∧
      (runDeleteItem s id env).result = Except.ok () ∧
      (runToggleLocationTracking s env).result = Except.ok () ∧
      (runRequestLocationPermission s env).result = Except.ok ()) := by
  refine ⟨?_, ?_, ?_, ?_, ?_, ?_, ?_, ?_⟩
  · intro s env e h
    rw [fetchItems_error s env e h]; exact ⟨rfl, rfl⟩
  · intro s env e he h
    rw [saveItem_create_error s env e he h]; exact ⟨rfl, rfl⟩
  · intro s env it e he h
    rw [saveItem_update_error s env it e he h]; exact ⟨rfl, rfl⟩
  · intro s id env e h
    rw [deleteItem_error s id env e h]; exact ⟨rfl, rfl⟩
  · intro s env e hreq h
    cases ht : s.isTracking with
    | false => rw [toggle_enable_error s env e ht h]; exact ⟨rfl, rfl⟩
    | true =>
      rw [toggle_disable s env ht] at hreq
      simp at hreq
  · intro s env e h
    rw [permission_error s env e h]; exact ⟨rfl, rfl⟩
  · intro s env p h hp
    rw [permission_refused s env p h hp]; exact ⟨rfl, rfl⟩
  · intro s env id
    exact handlers_complete s env id

theorem failures_are_caught_witness :
    (envErr.get = Except.error "Network Error" ∧
      ((runFetchItems sampleState envErr).result = Except.ok () ∧
       (alerts (runFetchItems sampleState envErr).trace).map Prod.fst = ["Erro"])) ∧
    (sampleState.editingItem = none ∧ envErr.post = Except.error "Network Error" ∧
      ((runSaveItem sampleState envErr).result = Except.ok () ∧
       (alerts (runSaveItem sampleState envErr).trace).map Prod.fst = ["Erro"])) ∧
    (sampleEditing.editingItem = some sampleA ∧ envErr.put = Except.error "Network Error" ∧
      ((runSaveItem sampleEditing envErr).result = Except.ok () ∧
       (alerts (runSaveItem sampleEditing envErr).trace).map Prod.fst = ["Erro"])) ∧
    (envErr.delete = Except.error "Network Error" ∧
      ((runDeleteItem sampleState "b" envErr).result = Except.ok () ∧
       (alerts (runDeleteItem sampleState "b" envErr).trace).map Prod.fst = ["Erro"])) ∧
    (Event.request Request.getCurrentPositionAsync ∈
        (runToggleLocationTracking sampleState envErr).trace ∧
      envErr.getCurrentPositionAsync = Except.error "unavailable" ∧
      ((runToggleLocationTracking sampleState envErr).result = Except.ok () ∧
       (alerts (runToggleLocationTracking sampleState envErr).trace).map Prod.fst = ["Erro"])) ∧
    (envErr.requestForegroundPermissionsAsync = Except.error "unavailable" ∧
      ((runRequestLocationPermission sampleState envErr).result = Except.ok () ∧
       (alerts (runRequestLocationPermission sampleState envErr).trace).map Prod.fst = ["Erro"])) ∧
    (envDenied.requestForegroundPermissionsAsync = Except.ok ⟨"denied"⟩ ∧
      (⟨"denied"⟩ : PermissionResponse).status ≠ "granted" ∧
      (runRequestLocationPermission sampleState envDenied).result = Except.ok () ∧
      (alerts (runRequestLocationPermission sampleState envDenied).trace).length = 1) :=
  ⟨⟨rfl, failures_are_caught.1 sampleState envErr _ rfl⟩,
   ⟨rfl, rfl, failures_are_caught.2.1 sampleState envErr _ rfl rfl⟩,
   ⟨rfl, rfl, failures_are_caught.2.2.1 sampleEditing envErr sampleA _ rfl rfl⟩,
   ⟨rfl, failures_are_caught.2.2.2.1 sampleState "b" envErr _ rfl⟩,
   ⟨by decide, rfl,
    failures_are_caught.2.2.2.2.1 sampleState envErr _ (by decide) rfl⟩,
   ⟨rfl, failures_are_caught.2.2.2.2.2.1 sampleState envErr _ rfl⟩,
   ⟨rfl, by decide,
    failures_are_caught.2.2.2.2.2.2.1 sampleState envDenied ⟨"denied"⟩ rfl (by decide)⟩⟩

/-- A write to the item list that follows `a` and the request `q` in a trace
has the request before it. -/
theorem request_precedes_write (a : Event) (q : Request) (rest pre post : List Event)
    (v : List Item) (ha : ∀ w, a ≠ Event.setItems w)
    (h : a :: Event.request q :: rest = pre ++ Event.setItems v :: post) :
    Event.request q ∈ pre := by
  rcases pre with _ | ⟨x, _ | ⟨y, pre⟩⟩
  · simp at h
    exact absurd h.1 (ha v)
  · simp at h
  · simp at h
    simp [h.2.1]

/-- C7: when the server rejects the request of saveItem (create or update) or of
deleteItem, the item list, editingItem, name, description, location and
isTracking all keep their values and setItems is never called; and in every
run of saveItem or deleteItem a call of setItems comes after the request has
been issued and only when the server answered it successfully. -/
theorem failed_mutation_is_atomic :
    (∀ (s : AppState) (env : Env) (e : Err),
      s.editingItem = none → env.post = Except.error e →
      (((runSaveItem s env).state.items = s.items ∧
        (runSaveItem s env).state.editingItem = s.editingItem ∧
        (runSaveItem s env).state.name = s.name ∧
        (runSaveItem s env).state.description = s.description ∧
        (runSaveItem s env).state.location = s.location ∧
        (runSaveItem s env).state.isTracking = s.isTracking) ∧
       itemWrites (runSaveItem s env).trace = [])) ∧
    (∀ (s : AppState) (env : Env) (it : Item) (e : Err),
      s.editingItem = some it → env.put = Except.error e →
      (((runSaveItem s env).state.items = s.items ∧
        (runSaveItem s env).state.editingItem = s.editingItem ∧
        (runSaveItem s env).state.name = s.name ∧
        (runSaveItem s env).state.description = s.description ∧
        (runSaveItem s env).state.location = s.location ∧
        (runSaveItem s env).state.isTracking = s.isTracking) ∧
       itemWrites (runSaveItem s env).trace = [])) ∧
    (∀ (s : AppState) (id : String) (env : Env) (e : Err), env.delete = Except.error e →
      (((runDeleteItem s id env).state.items = s.items ∧
        (runDeleteItem s id env).state.editingItem = s.editingItem ∧
        (runDeleteItem s id env).state.name = s.name ∧
        (runDeleteItem s id env).state.description = s.description ∧
        (runDeleteItem s id env).state.location = s.location ∧
        (runDeleteItem s id env).state.isTracking = s.isTracking) ∧
       itemWrites (runDeleteItem s id env).trace = [])) ∧
    (∀ (s : AppState) (env : Env) (pre post : List Event) (v : List Item),
      (runSaveItem s env).trace = pre ++ Event.setItems v :: post →
      (∃ q, q.isHttp = true ∧ Event.request q ∈ pre) ∧
      ((s.editingItem = none ∧ ∃ r, env.post = Except.ok r) ∨
       ((∃ it, s.editingItem = some it) ∧ ∃ r, env.put = Except.ok r))) ∧
    (∀ (s : AppState) (id : String) (env : Env) (pre post : List Event) (v : List Item),
      (runDeleteItem s id env).trace = pre ++ Event.setItems v :: post →
      (∃ q, q.isHttp = true ∧ Event.request q ∈ pre) ∧ env.delete = Except.ok ()) := by
  refine ⟨?_, ?_, ?_, ?_, ?_⟩
  · intro s env e he h
    rw [saveItem_create_error s env e he h]
    exact ⟨⟨rfl, rfl, rfl, rfl, rfl, rfl⟩, rfl⟩
  · intro s env it e he h
    rw [saveItem_update_error s env it e he h]
    exact ⟨⟨rfl, rfl, rfl, rfl, rfl, rfl⟩, rfl⟩
  · intro s id env e h
    rw [deleteItem_error s id env e h]
    exact ⟨⟨rfl, rfl, rfl, rfl, rfl, rfl⟩, rfl⟩
  · intro s env pre post v htr
    cases he : s.editingItem with
    | none =>
      cases h : env.post with
      | ok r =>
        rw [saveItem_create_ok s env r he h] at htr
        exact ⟨⟨_, by rfl, request_precedes_write _ _ _ _ _ _ (by simp) htr⟩,
          Or.inl ⟨rfl, r, rfl⟩⟩
      | error err =>
        rw [saveItem_create_error s env err he h] at htr
        have hm : Event.setItems v ∈ pre ++ Event.setItems v :: post := by simp
        rw [← htr] at hm
        simp at hm
    | some e =>
      cases h : env.put with
      | ok r =>
        rw [saveItem_update_ok s env e r he h] at htr
        exact ⟨⟨_, by rfl, request_precedes_write _ _ _ _ _ _ (by simp) htr⟩,
          Or.inr ⟨⟨e, rfl⟩, r, rfl⟩⟩
      | error err =>
        rw [saveItem_update_error s env e err he h] at htr
        have hm : Event.setItems v ∈ pre ++ Event.setItems v :: post := by simp
        rw [← htr] at hm
        simp at hm
  · intro s id env pre post v htr
    cases h : env.delete with
    | ok u =>
      rw [deleteItem_ok s id env h] at htr
      exact ⟨⟨_, by rfl, request_precedes_write _ _ _ _ _ _ (by simp) htr⟩, rfl⟩
    | error err =>
      rw [deleteItem_error s id env err h] at htr
      have hm : Event.setItems v ∈ pre ++ Event.setItems v :: post := by simp
      rw [← htr] at hm
      simp at hm

theorem failed_mutation_is_atomic_witness :
    (sampleTracking.editingItem = none ∧ envErr.post = Except.error "Network Error" ∧
      (((runSaveItem sampleTracking envErr).state.items = sampleTracking.items ∧
        (runSaveItem sampleTracking envErr).state.editingItem = sampleTracking.editingItem ∧
        (runSaveItem sampleTracking envErr).state.name = sampleTracking.name ∧
        (runSaveItem sampleTracking envErr).state.description = sampleTracking.description ∧
        (runSaveItem sampleTracking envErr).state.location = sampleTracking.location ∧
        (runSaveItem sampleTracking envErr).state.isTracking = sampleTracking.isTracking) ∧
       itemWrites (runSaveItem sampleTracking envErr).trace = [])) ∧
    (sampleEditing.editingItem = some sampleA ∧ envErr.put = Except.error "Network Error" ∧
      (((runSaveItem sampleEditing envErr).state.items = sampleEditing.items ∧
        (runSaveItem sampleEditing envErr).state.editingItem = sampleEditing.editingItem ∧
        (runSaveItem sampleEditing envErr).state.name = sampleEditing.name ∧
        (runSaveItem sampleEditing envErr).state.description = sampleEditing.description ∧
        (runSaveItem sampleEditing envErr).state.location = sampleEditing.location ∧
        (runSaveItem sampleEditing envErr).state.isTracking = sampleEditing.isTracking) ∧
       itemWrites (runSaveItem sampleEditing envErr).trace = [])) ∧
    (envErr.delete = Except.error "Network Error" ∧
      (((runDeleteItem sampleState "a" envErr).state.items = sampleState.items ∧
        (runDeleteItem sampleState "a" envErr).state.editingItem = sampleState.editingItem ∧
        (runDeleteItem sampleState "a" envErr).state.name = sampleState.name ∧
        (runDeleteItem sampleState "a" envErr).state.description = sampleState.description ∧
        (runDeleteItem sampleState "a" envErr).state.location = sampleState.location ∧
        (runDeleteItem sampleState "a" envErr).state.isTracking = sampleState.isTracking) ∧
       itemWrites (runDeleteItem sampleState "a" envErr).trace = [])) ∧
    ((runSaveItem sampleState envOk).trace =
        [Event.setLoading true,
         Event.request (Request.post itemsUrl
           { name := "Caneta", description := "preta", location := none })] ++
        Event.setItems [sampleA, sampleB, sampleA, sampleC] ::
        [Event.alert "Sucesso" "Produto adicionado!", Event.setName "",
         Event.setDescription "", Event.setLoading false] ∧
      (∃ q, q.isHttp = true ∧ Event.request q ∈
        [Event.setLoading true,
         Event.request (Request.post itemsUrl
           { name := "Caneta", description := "preta", location := none })]) ∧
      ((sampleState.editingItem = none ∧ ∃ r, envOk.post = Except.ok r) ∨
       ((∃ it, sampleState.editingItem = some it) ∧ ∃ r, envOk.put = Except.ok r))) ∧
    ((runDeleteItem sampleState "a" envOk).trace =
        [Event.setLoading true, Event.request (Request.delete (itemUrl "a"))] ++
        Event.setItems [sampleB] ::
        [Event.alert "Sucesso" "Produto excluído!", Event.setLoading false] ∧
      (∃ q, q.isHttp = true ∧ Event.request q ∈
        [Event.setLoading true, Event.request (Request.delete (itemUrl "a"))]) ∧
      envOk.delete = Except.ok ()) :=
  ⟨⟨rfl, rfl, failed_mutation_is_atomic.1 sampleTracking envErr _ rfl rfl⟩,
   ⟨rfl, rfl, failed_mutation_is_atomic.2.1 sampleEditing envErr sampleA _ rfl rfl⟩,
   ⟨rfl, failed_mutation_is_atomic.2.2.1 sampleState "a" envErr _ rfl⟩,
   ⟨by decide,
    failed_mutation_is_atomic.2.2.2.1 sampleState envOk
      [Event.setLoading true,
       Event.request (Request.post itemsUrl
         { name := "Caneta", description := "preta", location := none })]
      [Event.alert "Sucesso" "Produto adicionado!", Event.setName "",
       Event.setDescription "", Event.setLoading false]
      [sampleA, sampleB, sampleA, sampleC] (by decide)⟩,
   ⟨by decide,
    failed_mutation_is_atomic.2.2.2.2 sampleState "a" envOk
      [Event.setLoading true, Event.request (Request.delete (itemUrl "a"))]
      [Event.alert "Sucesso" "Produto excluído!", Event.setLoading false]
      [sampleB] (by decide)⟩⟩

/-! ## The loading flag -/

/-- C9: in every state and under every answer of the server, fetchItems,
saveItem and deleteItem call setLoading(true) first and issue their request
right after it, so that while the request is outstanding the live state is the
state of the call with loading true; they end with setLoading(false), complete
normally with loading false, and run identically whatever value loading had
before the call. -/
theorem loading_brackets_request (s : AppState) (env : Env) (id : String) :
    ((∃ q rest, (runFetchItems s env).trace =
          Event.setLoading true :: Event.request q :: rest) ∧
       (runFetchItems s env).awaiting = [{ s with loading := true }] ∧
       (runFetchItems s env).awaiting.map AppState.loading = [true] ∧
       (runFetchItems s env).trace.getLast? = some (Event.setLoading false) ∧
       (runFetchItems s env).state.loading = false ∧
       (runFetchItems s env).result = Except.ok () ∧
       ∀ b : Bool, runFetchItems { s with loading := b } env = runFetchItems s env) ∧
    ((∃ q rest, (runSaveItem s env).trace =
          Event.setLoading true :: Event.request q :: rest) ∧
       (runSaveItem s env).awaiting = [{ s with loading := true }] ∧
       (runSaveItem s env).awaiting.map AppState.loading = [true] ∧
       (runSaveItem s env).trace.getLast? = some (Event.setLoading false) ∧
       (runSaveItem s env).state.loading = false ∧
       (runSaveItem s env).result = Except.ok () ∧
       ∀ b : Bool, runSaveItem { s with loading := b } env = runSaveItem s env) ∧
    ((∃ q rest, (runDeleteItem s id env).trace =
          Event.setLoading true :: Event.request q :: rest) ∧
       (runDeleteItem s id env).awaiting = [{ s with loading := true }] ∧
       (runDeleteItem s id env).awaiting.map AppState.loading = [true] ∧
       (runDeleteItem s id env).trace.getLast? = some (Event.setLoading false) ∧
       (runDeleteItem s id env).state.loading = false ∧
       (runDeleteItem s id env).result = Except.ok () ∧
       ∀ b : Bool, runDeleteItem { s with loading := b } id env = runDeleteItem s id env) := by
  refine ⟨?_, ?_, ?_⟩
  · cases h : env.get with
    | ok d =>
      refine ⟨?_, ?_, ?_, ?_, ?_, ?_, ?_⟩
      · rw [fetchItems_ok s env d h]; exact ⟨_, _, rfl⟩
      · rw [fetchItems_ok s env d h]
      · rw [fetchItems_ok s env d h]; rfl
      · rw [fetchItems_ok s env d h]; rfl
      · rw [fetchItems_ok s env d h]
      · rw [fetchItems_ok s env d h]
      · intro b
        rw [fetchItems_ok s env d h,
          fetchItems_ok { s with loading := b } env d h]
    | error err =>
      refine ⟨?_, ?_, ?_, ?_, ?_, ?_, ?_⟩
      · rw [fetchItems_error s env err h]; exact ⟨_, _, rfl⟩
      · rw [fetchItems_error s env err h]
      · rw [fetchItems_error s env err h]; rfl
      · rw [fetchItems_error s env err h]; rfl
      · rw [fetchItems_error s env err h]
      · rw [fetchItems_error s env err h]
      · intro b
        rw [fetchItems_error s env err h,
          fetchItems_error { s with loading := b } env err h]
  · rcases Option.eq_none_or_eq_some s.editingItem with he | ⟨e, he⟩
    · cases h : env.post with
      | ok r =>
        refine ⟨?_, ?_, ?_, ?_, ?_, ?_, ?_⟩
        · rw [saveItem_create_ok s env r he h]; exact ⟨_, _, rfl⟩
        · rw [saveItem_create_ok s env r he h]
        · rw [saveItem_create_ok s env r he h]; rfl
        · rw [saveItem_create_ok s env r he h]; rfl
        · rw [saveItem_create_ok s env r he h]
        · rw [saveItem_create_ok s env r he h]
        · intro b
          rw [saveItem_create_ok s env r he h,
            saveItem_create_ok { s with loading := b } env r he h]
      | error err =>
        refine ⟨?_, ?_, ?_, ?_, ?_, ?_, ?_⟩
        · rw [saveItem_create_error s env err he h]; exact ⟨_, _, rfl⟩
        · rw [saveItem_create_error s env err he h]
        · rw [saveItem_create_error s env err he h]; rfl
        · rw [saveItem_create_error s env err he h]; rfl
        · rw [saveItem_create_error s env err he h]
        · rw [saveItem_create_error s env err he h]
        · intro b
          rw [saveItem_create_error s env err he h,
            saveItem_create_error { s with loading := b } env err he h]
    · cases h : env.put with
      | ok r =>
        refine ⟨?_, ?_, ?_, ?_, ?_, ?_, ?_⟩
        · rw [saveItem_update_ok s env e r he h]; exact ⟨_, _, rfl⟩
        · rw [saveItem_update_ok s env e r he h]
        · rw [saveItem_update_ok s env e r he h]; rfl
        · rw [saveItem_update_ok s env e r he h]; rfl
        · rw [saveItem_update_ok s env e r he h]
        · rw [saveItem_update_ok s env e r he h]
        · intro b
          rw [saveItem_update_ok s env e r he h,
            saveItem_update_ok { s with loading := b } env e r he h]
      | error err =>
        refine ⟨?_, ?_, ?_, ?_, ?_, ?_, ?_⟩
        · rw [saveItem_update_error s env e err he h]; exact ⟨_, _, rfl⟩
        · rw [saveItem_update_error s env e err he h]
        · rw [saveItem_update_error s env e err he h]; rfl
        · rw [saveItem_update_error s env e err he h]; rfl
        · rw [saveItem_update_error s env e err he h]
        · rw [saveItem_update_error s env e err he h]
        · intro b
          rw [saveItem_update_error s env e err he h,
            saveItem_update_error { s with loading := b } env e err he h]
  · cases h : env.delete with
    | ok u =>
      refine ⟨?_, ?_, ?_, ?_, ?_, ?_, ?_⟩
      · rw [deleteItem_ok s id env h]; exact ⟨_, _, rfl⟩
      · rw [deleteItem_ok s id env h]
      · rw [deleteItem_ok s id env h]; rfl
      · rw [deleteItem_ok s id env h]; rfl
      · rw [deleteItem_ok s id env h]
      · rw [deleteItem_ok s id env h]
      · intro b
        rw [deleteItem_ok s id env h,
          deleteItem_ok { s with loading := b } id env h]
    | error err =>
      refine ⟨?_, ?_, ?_, ?_, ?_, ?_, ?_⟩
      · rw [deleteItem_error s id env err h]; exact ⟨_, _, rfl⟩
      · rw [deleteItem_error s id env err h]
      · rw [deleteItem_error s id env err h]; rfl
      · rw [deleteItem_error s id env err h]; rfl
      · rw [deleteItem_error s id env err h]
      · rw [deleteItem_error s id env err h]
      · intro b
        rw [deleteItem_error s id env err h,
          deleteItem_error { s with loading := b } id env err h]

/-! ## Location tracking -/

/-- Every action other than the toggle leaves location and isTracking alone. -/
theorem step_tracking_frame (s : AppState) (a : Action) (env : Env)
    (ha : a ≠ Action.toggleLocationTracking) :
    (step s (a, env)).location = s.location ∧
    (step s (a, env)).isTracking = s.isTracking := by
  unfold step
  split
  · cases a with
    | fetchItems =>
      show (runFetchItems s env).state.location = _ ∧ (runFetchItems s env).state.isTracking = _
      cases h : env.get with
      | ok d => rw [fetchItems_ok s env d h]; exact ⟨rfl, rfl⟩
      | error err => rw [fetchItems_error s env err h]; exact ⟨rfl, rfl⟩
    | requestLocationPermission =>
      show (runRequestLocationPermission s env).state.location = _ ∧
        (runRequestLocationPermission s env).state.isTracking = _
      cases h : env.requestForegroundPermissionsAsync with
      | error err => rw [permission_error s env err h]; exact ⟨rfl, rfl⟩
      | ok p =>
        by_cases hp : p.status = "granted"
        · obtain ⟨status⟩ := p
          simp only at hp
          subst hp
          rw [permission_granted s env h]; exact ⟨rfl, rfl⟩
        · rw [permission_refused s env p h hp]; exact ⟨rfl, rfl⟩
    | toggleLocationTracking => exact absurd rfl ha
    | saveItem =>
      show (runSaveItem s env).state.location = _ ∧ (runSaveItem s env).state.isTracking = _
      rcases Option.eq_none_or_eq_some s.editingItem with he | ⟨e, he⟩
      · cases h : env.post with
        | ok r => rw [saveItem_create_ok s env r he h]; exact ⟨rfl, rfl⟩
        | error err => rw [saveItem_create_error s env err he h]; exact ⟨rfl, rfl⟩
      · cases h : env.put with
        | ok r => rw [saveItem_update_ok s env e r he h]; exact ⟨rfl, rfl⟩
        | error err => rw [saveItem_update_error s env e err he h]; exact ⟨rfl, rfl⟩
    | pressEditar item => exact ⟨rfl, rfl⟩
    | pressExcluir item =>
      show (runDeleteItem s item._id env).state.location = _ ∧
        (runDeleteItem s item._id env).state.isTracking = _
      cases h : env.delete with
      | ok u => rw [deleteItem_ok s item._id env h]; exact ⟨rfl, rfl⟩
      | error err => rw [deleteItem_error s item._id env err h]; exact ⟨rfl, rfl⟩
    | changeName text => exact ⟨rfl, rfl⟩
    | changeDescription text => exact ⟨rfl, rfl⟩
  · exact ⟨rfl, rfl⟩

/-- A held fix implies tracking, across one completed action. -/
theorem step_keeps_tracking (s : AppState) (a : Action × Env)
    (h : s.location ≠ none → s.isTracking = true) :
    (step s a).location ≠ none → (step s a).isTracking = true := by
  obtain ⟨a, env⟩ := a
  by_cases ht : a = Action.toggleLocationTracking
  · subst ht
    show (runToggleLocationTracking s env).state.location ≠ none →
      (runToggleLocationTracking s env).state.isTracking = true
    cases hs : s.isTracking with
    | true =>
      rw [toggle_disable s env hs]
      intro hl
      exact absurd rfl hl
    | false =>
      cases hp : env.getCurrentPositionAsync with
      | ok fix => rw [toggle_enable_ok s env fix hs hp]; intro _; rfl
      | error err => rw [toggle_enable_error s env err hs hp]; intro _; rfl
  · have hf := step_tracking_frame s a env ht
    rw [hf.1, hf.2]
    exact h

/-- A held fix implies tracking, across any sequence of completed actions. -/
theorem foldl_keeps_tracking (script : List (Action × Env)) (s : AppState)
    (h : s.location ≠ none → s.isTracking = true) :
    (script.foldl step s).location ≠ none → (script.foldl step s).isTracking = true := by
  induction script generalizing s with
  | nil => exact h
  | cons a rest ih => exact ih (step s a) (step_keeps_tracking s a h)

/-- C10: in every state reached from the initial state by completed actions, a
non-null location implies isTracking; toggleLocationTracking always negates
isTracking, also when the position request fails (then location keeps its
value), so from the initial state one failed enable reaches isTracking true
with location null; a toggle from a tracking state always ends with location
null and isTracking false. -/
theorem tracking_invariant :
    (∀ script : List (Action × Env),
      (reach script).location ≠ none → (reach script).isTracking = true) ∧
    (∀ (s : AppState) (env : Env),
      (runToggleLocationTracking s env).state.isTracking = !s.isTracking) ∧
    (∀ (s : AppState) (env : Env) (e : Err),
      s.isTracking = false → env.getCurrentPositionAsync = Except.error e →
      (runToggleLocationTracking s env).state.isTracking = true ∧
      (runToggleLocationTracking s env).state.location = s.location) ∧
    ((reach [(Action.toggleLocationTracking, envErr)]).isTracking = true ∧
      (reach [(Action.toggleLocationTracking, envErr)]).location = none) ∧
    (∀ (s : AppState) (env : Env), s.isTracking = true →
      (runToggleLocationTracking s env).state.location = none ∧
      (runToggleLocationTracking s env).state.isTracking = false) := by
  refine ⟨?_, ?_, ?_, ?_, ?_⟩
  · intro script
    exact foldl_keeps_tracking script initialState (fun h => absurd rfl h)
  · intro s env
    cases hs : s.isTracking with
    | true => rw [toggle_disable s env hs]; rfl
    | false =>
      cases hp : env.getCurrentPositionAsync with
      | ok fix => rw [toggle_enable_ok s env fix hs hp]; rfl
      | error err => rw [toggle_enable_error s env err hs hp]; rfl
  · intro s env e hs hp
    rw [toggle_enable_error s env e hs hp]
    exact ⟨rfl, rfl⟩
  · decide
  · intro s env hs
    rw [toggle_disable s env hs]
    exact ⟨rfl, rfl⟩

theorem tracking_invariant_witness :
    ((reach [(Action.fetchItems, envOk), (Action.toggleLocationTracking, envOk),
        (Action.saveItem, envOk)]).location ≠ none ∧
      (reach [(Action.fetchItems, envOk), (Action.toggleLocationTracking, envOk),
        (Action.saveItem, envOk)]).isTracking = true) ∧
    (sampleState.isTracking = false ∧
      envErr.getCurrentPositionAsync = Except.error "unavailable" ∧
      (runToggleLocationTracking sampleState envErr).state.isTracking = true ∧
      (runToggleLocationTracking sampleState envErr).state.location = sampleState.location) ∧
    (sampleTracking.isTracking = true ∧
      (runToggleLocationTracking sampleTracking envErr).state.location = none ∧
      (runToggleLocationTracking sampleTracking envErr).state.isTracking = false) :=
  ⟨⟨by decide,
    tracking_invariant.1
      [(Action.fetchItems, envOk), (Action.toggleLocationTracking, envOk),
        (Action.saveItem, envOk)] (by decide)⟩,
   ⟨rfl, rfl, tracking_invariant.2.2.1 sampleState envErr _ rfl rfl⟩,
   ⟨rfl, tracking_invariant.2.2.2.2 sampleTracking envErr rfl⟩⟩

end Fullmobi
